import Mathlib

/-!
Verification of the gene-expression analysis script
`examples/scripts/analyze_expression.py`.

The script is embedded shallowly:

* a pandas DataFrame of gene rows becomes a `List GeneRecord`;
* float columns (`p_value`, `fold_change`) become `ℚ` — the script only
  compares these values and takes absolute values, operations that are exact
  for floating point, so rational arithmetic is a faithful model;
* the `ExpressionAnalyzer` class becomes a structure threaded explicitly
  through its methods;
* Python exceptions become `Except` error values, with the error types named
  after the error taxonomy the documentation gives for the corresponding
  Python failures;
* `scipy.stats.hypergeom.sf` is modelled by the exact rational upper-tail
  hypergeometric sum, returning `none` (scipy returns NaN) when the
  distribution parameters fail scipy's argument check.
-/

/-- One row of the expression table: gene identifier, p-value and log2 fold
change, as in the columns `filter_significant_genes` accesses. -/
structure GeneRecord where
  gene_id : String
  p_value : ℚ
  fold_change : ℚ
deriving DecidableEq, Repr

/-- The row predicate of `filter_significant_genes`:
`(data['p_value'] < p_threshold) & (abs(data['fold_change']) > fc_threshold)`. -/
def significantRow (p_threshold fc_threshold : ℚ) (g : GeneRecord) : Bool :=
  decide (g.p_value < p_threshold) && decide (|g.fold_change| > fc_threshold)

/-- `filter_significant_genes(data, p_threshold, fc_threshold)`: the rows of
`data` passing both threshold tests, in input order. -/
def filter_significant_genes (data : List GeneRecord) (p_threshold fc_threshold : ℚ) :
    List GeneRecord :=
  data.filter (significantRow p_threshold fc_threshold)

/-- C2: `filter_significant_genes` returns exactly the subsequence (input
order preserved) of records with `p_value < p_threshold` and
`abs(fold_change) > fc_threshold`, both strict; every record of the output
satisfies both conditions, every passing record of the input is kept with its
multiplicity, every excluded record violates at least one condition, and an
empty input yields an empty output. -/
theorem filter_significant_genes_exact (data : List GeneRecord) (p fc : ℚ) :
    (filter_significant_genes data p fc).Sublist data ∧
    (∀ g ∈ filter_significant_genes data p fc, g.p_value < p ∧ fc < |g.fold_change|) ∧
    (∀ g, g.p_value < p ∧ fc < |g.fold_change| →
      (filter_significant_genes data p fc).count g = data.count g) ∧
    (∀ g ∈ data, g ∉ filter_significant_genes data p fc →
      ¬(g.p_value < p ∧ fc < |g.fold_change|)) ∧
    filter_significant_genes [] p fc = [] := by
  refine ⟨List.filter_sublist _, ?_, ?_, ?_, rfl⟩
  · intro g hg
    rw [filter_significant_genes, List.mem_filter, significantRow] at hg
    simpa using hg.2
  · intro g hg
    refine List.count_filter ?_
    simp [significantRow, hg.1, hg.2]
  · intro g hgdata hgout hcond
    refine hgout ?_
    rw [filter_significant_genes, List.mem_filter]
    exact ⟨hgdata, by simp [significantRow, hcond.1, hcond.2]⟩

/-- Witness for C2 at a concrete input: the record with p-value 1/100 and
fold change 2 passes thresholds (1/20, 3/2) and is kept with multiplicity 1. -/
theorem filter_significant_genes_exact_witness :
    (filter_significant_genes [⟨"G1", 1/100, 2⟩] (1/20) (3/2)).count ⟨"G1", 1/100, 2⟩ =
      ([⟨"G1", 1/100, 2⟩] : List GeneRecord).count ⟨"G1", 1/100, 2⟩ :=
  (filter_significant_genes_exact [⟨"G1", 1/100, 2⟩] (1/20) (3/2)).2.2.1
    ⟨"G1", 1/100, 2⟩ (by constructor <;> norm_num)

/-- C10: `filter_significant_genes` is idempotent — filtering its own output
with the same thresholds returns that output unchanged. -/
theorem filter_significant_genes_idem (data : List GeneRecord) (p fc : ℚ) :
    filter_significant_genes (filter_significant_genes data p fc) p fc =
      filter_significant_genes data p fc := by
  simp [filter_significant_genes, List.filter_filter]

/-- A raw input row whose required columns may be absent: accessing a missing
column in the pandas filter raises (KeyError), which the documented error
taxonomy calls `MissingFieldError`. -/
structure RawGeneRecord where
  gene_id : String
  p_value : Option ℚ
  fold_change : Option ℚ
deriving DecidableEq, Repr

/-- The documented error for an input record lacking a required column. -/
inductive MissingFieldError where
  | missing (field : String)
deriving DecidableEq, Repr

/-- Reads the `p_value` and `fold_change` fields of every record, in order,
failing on the first record lacking one — the column accesses
`data['p_value']` and `data['fold_change']` performed by
`filter_significant_genes`. -/
def readFields : List RawGeneRecord → Except MissingFieldError (List (RawGeneRecord × ℚ × ℚ))
  | [] => .ok []
  | g :: rest =>
    match g.p_value, g.fold_change with
    | none, _ => .error (.missing "p_value")
    | some _, none => .error (.missing "fold_change")
    | some p, some fc =>
      match readFields rest with
      | .error e => .error e
      | .ok tail => .ok ((g, p, fc) :: tail)

/-- `filter_significant_genes` on raw rows: field access first (failing with
`MissingFieldError` when a field is absent), then the threshold filter. -/
def filter_significant_genes_raw (data : List RawGeneRecord) (p_threshold fc_threshold : ℚ) :
    Except MissingFieldError (List RawGeneRecord) :=
  match readFields data with
  | .error e => .error e
  | .ok rows =>
    .ok (((rows.filter fun r =>
      decide (r.2.1 < p_threshold) && decide (|r.2.2| > fc_threshold)).map fun r => r.1))

/-- Reading fields succeeds exactly when every record has both fields. -/
theorem readFields_ok_iff (data : List RawGeneRecord) :
    (∃ rows, readFields data = .ok rows) ↔
      ∀ g ∈ data, g.p_value.isSome ∧ g.fold_change.isSome := by
  induction data with
  | nil => simp [readFields]
  | cons g rest ih =>
    rcases hp : g.p_value with _ | p
    · simp only [readFields, hp]
      constructor
      · rintro ⟨rows, hrows⟩
        exact absurd hrows (by simp)
      · intro hall
        have h1 := (hall g (by simp)).1
        rw [hp] at h1
        simp at h1
    · rcases hfc : g.fold_change with _ | fc
      · simp only [readFields, hp, hfc]
        constructor
        · rintro ⟨rows, hrows⟩
          exact absurd hrows (by simp)
        · intro hall
          have h1 := (hall g (by simp)).2
          rw [hfc] at h1
          simp at h1
      · simp only [readFields, hp, hfc]
        rcases htail : readFields rest with e | tail
        · constructor
          · rintro ⟨rows, hrows⟩
            exact absurd hrows (by simp)
          · intro hall
            obtain ⟨tail2, htail2⟩ := ih.2 fun x hx => hall x (List.mem_cons_of_mem g hx)
            rw [htail] at htail2
            exact absurd htail2 (by simp)
        · constructor
          · rintro ⟨rows, hrows⟩ x hx
            rcases List.mem_cons.1 hx with h | h
            · subst h; simp [hp, hfc]
            · exact ih.1 ⟨tail, htail⟩ x h
          · intro hall
            exact ⟨(g, p, fc) :: tail, rfl⟩

/-- C8: if any input record lacks the `p_value` or `fold_change` field the
filter fails with a `MissingFieldError`; with both fields present on every
record it succeeds. -/
theorem filter_significant_genes_raw_missing_field (data : List RawGeneRecord) (p fc : ℚ) :
    ((∃ g ∈ data, g.p_value = none ∨ g.fold_change = none) →
      ∃ e, filter_significant_genes_raw data p fc = .error e) ∧
    ((∀ g ∈ data, g.p_value.isSome ∧ g.fold_change.isSome) →
      ∃ out, filter_significant_genes_raw data p fc = .ok out) := by
  constructor
  · rintro ⟨g, hg, hmiss⟩
    rcases hread : readFields data with e | rows
    · exact ⟨e, by rw [filter_significant_genes_raw, hread]⟩
    · have := (readFields_ok_iff data).1 ⟨rows, hread⟩ g hg
      rcases hmiss with h | h <;> rw [h] at this <;> simp at this
  · intro hall
    obtain ⟨rows, hrows⟩ := (readFields_ok_iff data).2 hall
    exact ⟨_, by rw [filter_significant_genes_raw, hrows]⟩

/-- Witness for C8: a record lacking `p_value` makes the call fail, and a
fully-populated record makes it succeed. -/
theorem filter_significant_genes_raw_missing_field_witness :
    (∃ e, filter_significant_genes_raw [⟨"G1", none, some 2⟩] (1/20) (3/2) = .error e) ∧
    (∃ out, filter_significant_genes_raw [⟨"G1", some (1/100), some 2⟩] (1/20) (3/2) = .ok out) :=
  ⟨(filter_significant_genes_raw_missing_field [⟨"G1", none, some 2⟩] (1/20) (3/2)).1
      ⟨⟨"G1", none, some 2⟩, by simp, Or.inl rfl⟩,
   (filter_significant_genes_raw_missing_field [⟨"G1", some (1/100), some 2⟩] (1/20) (3/2)).2
      (by intro g hg; simp at hg; subst hg; simp)⟩

/-- The `ExpressionAnalyzer` class: the stored dataset and the most recent
filter result (`None` until `run_analysis` has run). -/
structure ExpressionAnalyzer where
  data : List GeneRecord
  significant_genes : Option (List GeneRecord)
deriving DecidableEq, Repr

/-- `ExpressionAnalyzer.__init__(data)`: stores the dataset, sets
`significant_genes = None`. -/
def ExpressionAnalyzer.init (data : List GeneRecord) : ExpressionAnalyzer :=
  ⟨data, none⟩

/-- `run_analysis(p_threshold, fc_threshold)`: filters the stored dataset,
stores the result and also returns it. -/
def run_analysis (a : ExpressionAnalyzer) (p_threshold fc_threshold : ℚ) :
    List GeneRecord × ExpressionAnalyzer :=
  let s := filter_significant_genes a.data p_threshold fc_threshold
  (s, ⟨a.data, some s⟩)

/-- The documented error for requesting summary statistics before any
analysis run (in Python, `len(None)` raises at this point). -/
inductive NotYetAnalyzedError where
  | notYetAnalyzed
deriving DecidableEq, Repr

/-- The mapping returned by `get_summary_stats`. -/
structure SummaryStats where
  total_genes : ℕ
  significant_genes : ℕ
  upregulated : ℕ
  downregulated : ℕ
deriving DecidableEq, Repr

/-- `get_summary_stats()`: counts over the stored dataset and the stored
filter result; with no stored result the Python code fails on `len(None)`,
the failure the documentation names `NotYetAnalyzedError`. -/
def get_summary_stats (a : ExpressionAnalyzer) : Except NotYetAnalyzedError SummaryStats :=
  match a.significant_genes with
  | none => .error .notYetAnalyzed
  | some s =>
    .ok { total_genes := a.data.length
          significant_genes := s.length
          upregulated := (s.filter fun g => decide (g.fold_change > 0)).length
          downregulated := (s.filter fun g => decide (g.fold_change < 0)).length }

/-- Records partition by the sign of `fold_change`: the up count, the down
count and the exactly-zero count add up to the length. -/
theorem countP_fold_change_partition (l : List GeneRecord) :
    (l.countP fun g => decide (g.fold_change > 0)) +
      (l.countP fun g => decide (g.fold_change < 0)) +
      (l.countP fun g => decide (g.fold_change = 0)) = l.length := by
  induction l with
  | nil => rfl
  | cons g t ih =>
    rcases lt_trichotomy g.fold_change 0 with h | h | h <;>
      simp only [List.countP_cons, List.length_cons, decide_eq_true_eq] <;>
      rw [← ih]
    · simp [h, h.ne, not_lt_of_lt h]
      omega
    · simp [h]
      omega
    · simp [h, h.ne', not_lt_of_lt h]
      omega

/-- C5: after `run_analysis`, `get_summary_stats` succeeds and returns the
input length as `total_genes`, the filtered length as `significant_genes`,
the count of filtered records with strictly positive fold change as
`upregulated` and with strictly negative fold change as `downregulated`;
records with fold change exactly 0 fall in neither bucket, so the two bucket
counts plus the zero count give the significant count. -/
theorem get_summary_stats_counts (a : ExpressionAnalyzer) (p fc : ℚ) :
    ∃ st : SummaryStats,
      get_summary_stats (run_analysis a p fc).2 = .ok st ∧
      st.total_genes = a.data.length ∧
      st.significant_genes = (filter_significant_genes a.data p fc).length ∧
      st.upregulated =
        ((filter_significant_genes a.data p fc).countP fun g => decide (g.fold_change > 0)) ∧
      st.downregulated =
        ((filter_significant_genes a.data p fc).countP fun g => decide (g.fold_change < 0)) ∧
      st.upregulated + st.downregulated +
        ((filter_significant_genes a.data p fc).countP fun g => decide (g.fold_change = 0)) =
        st.significant_genes := by
  refine ⟨_, rfl, rfl, rfl, ?_, ?_, ?_⟩
  · rw [List.countP_eq_length_filter]
  · rw [List.countP_eq_length_filter]
  · simpa [List.countP_eq_length_filter] using
      countP_fold_change_partition (filter_significant_genes a.data p fc)

/-- Runs `run_analysis` once per listed threshold pair, threading the
analyzer state. -/
def runMany (a : ExpressionAnalyzer) (calls : List (ℚ × ℚ)) : ExpressionAnalyzer :=
  calls.foldl (fun s c => (run_analysis s c.1 c.2).2) a

/-- After at least one `run_analysis`, the stored result is present. -/
theorem runMany_cons_isSome (calls : List (ℚ × ℚ)) :
    ∀ (a : ExpressionAnalyzer) (c : ℚ × ℚ),
      ∃ s, (runMany a (c :: calls)).significant_genes = some s := by
  induction calls with
  | nil => intro a c; exact ⟨_, rfl⟩
  | cons c2 rest ih => intro a c; exact ih (run_analysis a c.1 c.2).2 c2

/-- C6: on a freshly initialised analyzer `get_summary_stats` fails with
`NotYetAnalyzedError`; after any nonempty sequence of `run_analysis` calls it
succeeds. -/
theorem get_summary_stats_requires_run (data : List GeneRecord) (calls : List (ℚ × ℚ)) :
    get_summary_stats (ExpressionAnalyzer.init data) = .error .notYetAnalyzed ∧
    (calls ≠ [] →
      ∃ st, get_summary_stats (runMany (ExpressionAnalyzer.init data) calls) = .ok st) := by
  refine ⟨rfl, ?_⟩
  intro hne
  rcases calls with _ | ⟨c, rest⟩
  · exact absurd rfl hne
  · obtain ⟨s, hs⟩ := runMany_cons_isSome rest (ExpressionAnalyzer.init data) c
    exact ⟨_, by rw [get_summary_stats, hs]⟩

/-- Witness for C6: with one record and one run at thresholds (1/20, 3/2) the
summary succeeds, and before any run it fails. -/
theorem get_summary_stats_requires_run_witness :
    get_summary_stats (ExpressionAnalyzer.init [⟨"G1", 1/100, 2⟩]) = .error .notYetAnalyzed ∧
    ∃ st, get_summary_stats
      (runMany (ExpressionAnalyzer.init [⟨"G1", 1/100, 2⟩]) [(1/20, 3/2)]) = .ok st :=
  ⟨(get_summary_stats_requires_run [⟨"G1", 1/100, 2⟩] [(1/20, 3/2)]).1,
   (get_summary_stats_requires_run [⟨"G1", 1/100, 2⟩] [(1/20, 3/2)]).2 (by simp)⟩

/-- C9: `run_analysis` leaves the stored dataset unchanged and only replaces
the stored filter result; it returns exactly the filter of the stored
dataset; and a second call with any thresholds recomputes from the same
unchanged dataset, overwriting the previous result. (The filter itself is a
pure function of its input, mutating nothing.) -/
theorem run_analysis_frame (a : ExpressionAnalyzer) (p fc p2 fc2 : ℚ) :
    ((run_analysis a p fc).2).data = a.data ∧
    ((run_analysis a p fc).2).significant_genes =
      some (filter_significant_genes a.data p fc) ∧
    (run_analysis a p fc).1 = filter_significant_genes a.data p fc ∧
    (run_analysis (run_analysis a p fc).2 p2 fc2).2 =
      ⟨a.data, some (filter_significant_genes a.data p2 fc2)⟩ :=
  ⟨rfl, rfl, rfl, rfl⟩

/-- Numerator of the upper-tail hypergeometric probability: the number of
draws of `n` from `N` with at least `k` of the `K` successes, counted as
`∑ j ∈ [k, n], C(K, j) * C(N - K, n - j)`. -/
def hypergeomTailNum (N K n k : ℕ) : ℕ :=
  ∑ j ∈ Finset.Icc k n, K.choose j * (N - K).choose (n - j)

/-- Upper-tail hypergeometric probability `P(X ≥ k)` for population `N`,
successes `K`, draws `n`, as an exact rational. -/
def hypergeomTailQ (N K n k : ℕ) : ℚ :=
  (hypergeomTailNum N K n k : ℚ) / (N.choose n : ℚ)

/-- Model of `scipy.stats.hypergeom.sf(k, M, n, N)` (here `M` is the
population `N`, scipy's `n` is the success count `K`, scipy's `N` is the draw
count `n`): the survival function `P(X > k) = P(X ≥ k + 1)`. scipy's argument
check requires successes and draws not to exceed the population and yields
NaN — modelled as `none` — when it fails; it raises no exception. -/
def hypergeom_sf (k N K n : ℕ) : Option ℚ :=
  if K ≤ N ∧ n ≤ N then some (hypergeomTailQ N K n (k + 1)) else none

/-- A pathway: display name and member gene identifiers, the fields
`pathway['name']` and `pathway['genes']` the code reads. -/
structure Pathway where
  name : String
  genes : List String
deriving DecidableEq, Repr

/-- The pathway database shaped as the two uses inside
`calculate_pathway_enrichment` jointly demand: iterating `pathway_db` yields
the pathway entries, and the subscript `pathway_db['total_genes']` yields a
sized background gene collection, since the code takes
`len(pathway_db['total_genes'])`. -/
structure PathwayDB where
  pathways : List Pathway
  total_genes : List String
deriving DecidableEq, Repr

/-- One row of the returned enrichment table: pathway name, overlap count and
hypergeometric p-value (`none` models scipy's NaN). -/
structure EnrichmentResult where
  pathway : String
  overlap : ℕ
  p_value : Option ℚ
deriving DecidableEq, Repr

/-- `len(set(gene_list) & set(pathway_genes))`: the number of distinct gene
identifiers shared by the two lists. -/
def overlapCard (gene_list genes : List String) : ℕ :=
  (gene_list.toFinset ∩ genes.toFinset).card

/-- `calculate_pathway_enrichment(gene_list, pathway_db)`: for each pathway
with positive overlap, one row with the overlap count and the survival
function at `overlap - 1` for population `len(pathway_db['total_genes'])`,
successes `len(pathway['genes'])`, draws `len(gene_list)`. -/
def calculate_pathway_enrichment (gene_list : List String) (db : PathwayDB) :
    List EnrichmentResult :=
  db.pathways.filterMap fun pathway =>
    if 0 < overlapCard gene_list pathway.genes then
      some ⟨pathway.name, overlapCard gene_list pathway.genes,
        hypergeom_sf (overlapCard gene_list pathway.genes - 1)
          db.total_genes.length pathway.genes.length gene_list.length⟩
    else none

/-- The pathway database as the documented data model describes it:
`total_genes` is the single integer size of the background gene universe. -/
structure PathwayDatabase where
  pathways : List Pathway
  total_genes : ℕ
deriving DecidableEq, Repr

/-- Python `TypeError`, raised when `len()` is applied to an integer. -/
inductive PyTypeError where
  | lenOfInt
deriving DecidableEq, Repr

/-- The loop of `calculate_pathway_enrichment` run against a database whose
`total_genes` is the documented single integer: zero-overlap pathways are
skipped, and the first pathway with positive overlap evaluates
`len(pathway_db['total_genes'])` on that integer, aborting the call with
`TypeError`. -/
def enrichLoopIntDB (gene_list : List String) :
    List Pathway → Except PyTypeError (List EnrichmentResult)
  | [] => .ok []
  | p :: rest =>
    if 0 < overlapCard gene_list p.genes then .error .lenOfInt
    else enrichLoopIntDB gene_list rest

/-- `calculate_pathway_enrichment` on a `PathwayDatabase` carrying the single
integer `total_genes` of the documented data model. -/
def calculate_pathway_enrichment_intdb (gene_list : List String) (db : PathwayDatabase) :
    Except PyTypeError (List EnrichmentResult) :=
  enrichLoopIntDB gene_list db.pathways

/-- The tail count shrinks as the threshold `k` grows. -/
theorem hypergeomTailNum_antitone (N K n k1 k2 : ℕ) (h : k1 ≤ k2) :
    hypergeomTailNum N K n k2 ≤ hypergeomTailNum N K n k1 :=
  Finset.sum_le_sum_of_subset (Finset.Icc_subset_Icc h le_rfl)

/-- Vandermonde: the full tail count (threshold 0) is the total number of
draws. -/
theorem hypergeomTailNum_zero (N K n : ℕ) (hK : K ≤ N) :
    hypergeomTailNum N K n 0 = N.choose n := by
  have hr : Finset.Icc 0 n = Finset.range (n + 1) := by
    ext x
    simp [Nat.lt_succ_iff]
  rw [hypergeomTailNum, hr,
    ← Finset.Nat.sum_antidiagonal_eq_sum_range_succ
      (fun i j => K.choose i * (N - K).choose j),
    ← Nat.add_choose_eq, Nat.add_sub_cancel' hK]

/-- The tail probability is nonnegative. -/
theorem hypergeomTailQ_nonneg (N K n k : ℕ) : 0 ≤ hypergeomTailQ N K n k := by
  rw [hypergeomTailQ]
  positivity

/-- With successes and draws bounded by the population, the tail probability
is at most 1. -/
theorem hypergeomTailQ_le_one (N K n k : ℕ) (hK : K ≤ N) (hn : n ≤ N) :
    hypergeomTailQ N K n k ≤ 1 := by
  rw [hypergeomTailQ, div_le_one (by exact_mod_cast Nat.choose_pos hn)]
  exact_mod_cast le_trans (hypergeomTailNum_antitone N K n 0 k (Nat.zero_le k))
    (le_of_eq (hypergeomTailNum_zero N K n hK))

/-- C4: holding population, pathway size and sample size fixed, the p-value
computed by the enrichment survival-function call is non-increasing in the
overlap: whenever both overlaps yield a defined p-value, the larger overlap
yields the smaller (or equal) p-value. -/
theorem enrichment_p_value_antitone (N K n o1 o2 : ℕ) (h1 : 1 ≤ o1) (h12 : o1 ≤ o2)
    (p1 p2 : ℚ) (hp1 : hypergeom_sf (o1 - 1) N K n = some p1)
    (hp2 : hypergeom_sf (o2 - 1) N K n = some p2) : p2 ≤ p1 := by
  rw [hypergeom_sf] at hp1 hp2
  by_cases hc : K ≤ N ∧ n ≤ N
  · rw [if_pos hc] at hp1 hp2
    have e1 := Option.some.inj hp1
    have e2 := Option.some.inj hp2
    subst e1
    subst e2
    rw [Nat.sub_add_cancel h1, Nat.sub_add_cancel (h1.trans h12), hypergeomTailQ,
      hypergeomTailQ, div_le_div_iff_of_pos_right (by exact_mod_cast Nat.choose_pos hc.2)]
    exact_mod_cast hypergeomTailNum_antitone N K n o1 o2 h12
  · rw [if_neg hc] at hp1
    exact absurd hp1 (by simp)

/-- Witness for C4 with population 10, successes 4, draws 3: overlaps 1 and 2
give p-values 5/6 and 1/3, and the theorem yields 1/3 ≤ 5/6. -/
theorem enrichment_p_value_antitone_witness :
    hypergeom_sf 0 10 4 3 = some (5/6) ∧ hypergeom_sf 1 10 4 3 = some (1/3) ∧
      (1/3 : ℚ) ≤ 5/6 := by
  have h1 : hypergeom_sf 0 10 4 3 = some (5/6) := by
    rw [hypergeom_sf, if_pos (by omega), hypergeomTailQ]
    rw [show hypergeomTailNum 10 4 3 (0 + 1) = 100 from by decide,
      show Nat.choose 10 3 = 120 from by decide]
    norm_num
  have h2 : hypergeom_sf 1 10 4 3 = some (1/3) := by
    rw [hypergeom_sf, if_pos (by omega), hypergeomTailQ]
    rw [show hypergeomTailNum 10 4 3 (1 + 1) = 40 from by decide,
      show Nat.choose 10 3 = 120 from by decide]
    norm_num
  exact ⟨h1, h2,
    enrichment_p_value_antitone 10 4 3 1 2 le_rfl (by omega) (5/6) (1/3) h1 h2⟩

/-- A guarded filterMap is the map over the filtered list: the library form
of the append-inside-if loop of `calculate_pathway_enrichment`. -/
theorem enrichRows_eq (gene_list : List String) (L n : ℕ) (ps : List Pathway) :
    (ps.filterMap fun p =>
      if 0 < overlapCard gene_list p.genes then
        some (⟨p.name, overlapCard gene_list p.genes,
          hypergeom_sf (overlapCard gene_list p.genes - 1) L p.genes.length n⟩ :
          EnrichmentResult)
      else none) =
    ((ps.filter fun p => decide (0 < overlapCard gene_list p.genes)).map fun p =>
      ⟨p.name, overlapCard gene_list p.genes,
        hypergeom_sf (overlapCard gene_list p.genes - 1) L p.genes.length n⟩) := by
  induction ps with
  | nil => rfl
  | cons a t ih =>
    by_cases h : 0 < overlapCard gene_list a.genes <;>
      simp [List.filterMap_cons, List.filter_cons, h, ih]

/-- C3: the enrichment table has exactly one row per pathway with strictly
positive overlap, in database order, carrying the exact set-intersection size
as its overlap; zero-overlap pathways never appear, and an empty gene list
yields an empty table. -/
theorem calculate_pathway_enrichment_rows (gene_list : List String) (db : PathwayDB) :
    calculate_pathway_enrichment gene_list db =
      ((db.pathways.filter fun p => decide (0 < overlapCard gene_list p.genes)).map fun p =>
        ⟨p.name, overlapCard gene_list p.genes,
          hypergeom_sf (overlapCard gene_list p.genes - 1) db.total_genes.length
            p.genes.length gene_list.length⟩) ∧
    (∀ r ∈ calculate_pathway_enrichment gene_list db, 0 < r.overlap) ∧
    (gene_list = [] → calculate_pathway_enrichment gene_list db = []) := by
  refine ⟨enrichRows_eq gene_list db.total_genes.length gene_list.length db.pathways,
    ?_, ?_⟩
  · intro r hr
    simp only [calculate_pathway_enrichment, List.mem_filterMap] at hr
    obtain ⟨p, hp, hfp⟩ := hr
    by_cases h : 0 < overlapCard gene_list p.genes
    · rw [if_pos h] at hfp
      have := Option.some.inj hfp
      subst this
      exact h
    · rw [if_neg h] at hfp
      exact absurd hfp (by simp)
  · intro h
    subst h
    rw [calculate_pathway_enrichment]
    refine List.filterMap_eq_nil_iff.mpr fun p hp => ?_
    rw [if_neg]
    simp [overlapCard]

/-- Witness for C3: the empty gene list always yields an empty enrichment
table, here on a one-pathway database. -/
theorem calculate_pathway_enrichment_rows_witness :
    calculate_pathway_enrichment [] ⟨[⟨"P1", ["A"]⟩], ["A", "B"]⟩ = [] :=
  (calculate_pathway_enrichment_rows [] ⟨[⟨"P1", ["A"]⟩], ["A", "B"]⟩).2.2 rfl

/-- Counterexample to C7 as stated: with a background collection of 2 genes,
a 3-gene pathway and an overlapping 1-gene list, the parameters are invalid
(pathway size exceeds the population) yet `calculate_pathway_enrichment`
raises nothing — it returns the row normally, with the undefined (NaN,
modelled `none`) p-value scipy produces. -/
theorem enrichment_invalid_params_no_error :
    calculate_pathway_enrichment ["A"] ⟨[⟨"P1", ["A", "B", "C"]⟩], ["A", "B"]⟩ =
      [⟨"P1", 1, none⟩] := by decide

/-- C7 amended: a pathway with positive overlap always yields a row — with a
p-value in [0, 1] when the background size is at least the pathway size and
at least the gene-list size, and with scipy's NaN (`none`) p-value, not an
error, when either bound fails. -/
theorem enrichment_params_behavior (gene_list : List String) (db : PathwayDB) (p : Pathway)
    (hp : p ∈ db.pathways) (hov : 0 < overlapCard gene_list p.genes) :
    (p.genes.length ≤ db.total_genes.length ∧ gene_list.length ≤ db.total_genes.length →
      ∃ q : ℚ, 0 ≤ q ∧ q ≤ 1 ∧
        (⟨p.name, overlapCard gene_list p.genes, some q⟩ : EnrichmentResult) ∈
          calculate_pathway_enrichment gene_list db) ∧
    (db.total_genes.length < p.genes.length ∨ db.total_genes.length < gene_list.length →
      (⟨p.name, overlapCard gene_list p.genes, none⟩ : EnrichmentResult) ∈
        calculate_pathway_enrichment gene_list db) := by
  have hmem : (⟨p.name, overlapCard gene_list p.genes,
      hypergeom_sf (overlapCard gene_list p.genes - 1) db.total_genes.length
        p.genes.length gene_list.length⟩ : EnrichmentResult) ∈
      calculate_pathway_enrichment gene_list db := by
    rw [calculate_pathway_enrichment]
    exact List.mem_filterMap.mpr ⟨p, hp, by rw [if_pos hov]⟩
  constructor
  · rintro ⟨hK, hn⟩
    refine ⟨hypergeomTailQ db.total_genes.length p.genes.length gene_list.length
      (overlapCard gene_list p.genes),
      hypergeomTailQ_nonneg _ _ _ _,
      hypergeomTailQ_le_one _ _ _ _ hK hn, ?_⟩
    have hsf : hypergeom_sf (overlapCard gene_list p.genes - 1) db.total_genes.length
        p.genes.length gene_list.length =
        some (hypergeomTailQ db.total_genes.length p.genes.length gene_list.length
          (overlapCard gene_list p.genes)) := by
      rw [hypergeom_sf, if_pos ⟨hK, hn⟩, Nat.sub_add_cancel hov]
    rw [hsf] at hmem
    exact hmem
  · intro hbad
    have hsf : hypergeom_sf (overlapCard gene_list p.genes - 1) db.total_genes.length
        p.genes.length gene_list.length = none := by
      rw [hypergeom_sf, if_neg]
      rcases hbad with h | h <;> omega
    rw [hsf] at hmem
    exact hmem

/-- Witness for C7 amended: a valid database (4 background genes) yields a
p-value in [0, 1] for the overlapping pathway, and an undersized one (2
background genes, 3-gene pathway) yields the NaN row. -/
theorem enrichment_params_behavior_witness :
    (∃ q : ℚ, 0 ≤ q ∧ q ≤ 1 ∧
      (⟨"P1", 1, some q⟩ : EnrichmentResult) ∈
        calculate_pathway_enrichment ["A"] ⟨[⟨"P1", ["A", "B"]⟩], ["A", "B", "C", "D"]⟩) ∧
    ((⟨"P2", 1, (none : Option ℚ)⟩ : EnrichmentResult) ∈
      calculate_pathway_enrichment ["A"] ⟨[⟨"P2", ["A", "B", "C"]⟩], ["A", "B"]⟩) := by
  constructor
  · have h := (enrichment_params_behavior ["A"] ⟨[⟨"P1", ["A", "B"]⟩], ["A", "B", "C", "D"]⟩
      ⟨"P1", ["A", "B"]⟩ (by decide) (by decide)).1 (by decide)
    simpa using h
  · have h := (enrichment_params_behavior ["A"] ⟨[⟨"P2", ["A", "B", "C"]⟩], ["A", "B"]⟩
      ⟨"P2", ["A", "B", "C"]⟩ (by decide) (by decide)).2 (by decide)
    simpa using h

/-- C1: on a database carrying the documented single-integer `total_genes`
(here 100), the first pathway with positive overlap makes the code evaluate
`len(pathway_db['total_genes'])` on that integer, so the call aborts with
`TypeError` and emits no hypergeometric p-value at all. -/
theorem enrichment_aborts_on_integer_total_genes :
    calculate_pathway_enrichment_intdb ["A"] ⟨[⟨"P1", ["A", "B"]⟩], 100⟩ =
      .error PyTypeError.lenOfInt := by rfl
